import Mathlib

set_option maxHeartbeats 1000000
set_option maxRecDepth 4000

/- Shallow embedding of the sliding-window sample generator of
   src/models/simple_models_with_oisst.py (class HURDATPlus).

   Tables are lists of rows; pandas/torch operations are translated to
   executable list functions; fallible Python operations return
   Except GenError.  Raster arrays are modelled at the shape level
   (the claims about them are shape claims); numeric feature values are
   modelled as integers since generation only extracts them. -/

/-- Errors that can abort sample generation.  `lookupError` models the
exception raised by the pandas Series.item() call when a raster date does
not resolve to exactly one index row (the LookupError of the design);
`loadError` models a failing np.load; `runtimeError` models torch.stack
on an empty or shape-mismatched list; `keyError` a missing column;
`indexError` iloc on an empty frame; `valueError` datetime validation. -/
inductive GenError where
  | keyError
  | indexError
  | valueError
  | lookupError
  | loadError
  | runtimeError
  deriving DecidableEq, Repr

/-- Proleptic-Gregorian leap-year rule, as in Python's datetime module. -/
def isLeapYear (y : Nat) : Bool :=
  y % 4 == 0 && (y % 100 != 0 || y % 400 == 0)

/-- Number of days in month `m` of year `y`. -/
def daysInMonth (y m : Nat) : Nat :=
  if m == 2 then (if isLeapYear y then 29 else 28)
  else if m == 4 || m == 6 || m == 9 || m == 11 then 30
  else 31

/-- A validated date-time with hour resolution, mirroring the
datetime.datetime values built in generate_storm_ts_samples (minute and
second are always zero there). -/
structure Datetime where
  year : Nat
  month : Nat
  day : Nat
  hour : Nat
  deriving DecidableEq, Repr

/-- datetime.datetime(year, month, day, hour): validates the components
and raises ValueError when one is out of range. -/
def mkDatetime (y m d h : Nat) : Except GenError Datetime :=
  if 1 ≤ y ∧ y ≤ 9999 ∧ 1 ≤ m ∧ m ≤ 12 ∧ 1 ≤ d ∧ d ≤ daysInMonth y m ∧ h ≤ 23
  then Except.ok ⟨y, m, d, h⟩
  else Except.error GenError.valueError

/-- Zero-pad a number to two digits, as strftime does for %m, %d, %H. -/
def pad2 (n : Nat) : String :=
  if n < 10 then "0" ++ toString n else toString n

/-- Zero-pad a number to four digits, as strftime does for %Y. -/
def pad4 (n : Nat) : String :=
  if n < 10 then "000" ++ toString n
  else if n < 100 then "00" ++ toString n
  else if n < 1000 then "0" ++ toString n
  else toString n

/-- strftime "%Y-%m-%d". -/
def fmtDate (t : Datetime) : String :=
  pad4 t.year ++ "-" ++ pad2 t.month ++ "-" ++ pad2 t.day

/-- strftime "%Y-%m-%d %H:%M:%S" (minute and second are always zero). -/
def fmtDatetime (t : Datetime) : String :=
  fmtDate t ++ " " ++ pad2 t.hour ++ ":00:00"

/-- Subtraction of datetime.timedelta(days=1): step back one calendar
day, keeping the time of day. -/
def subOneDay (t : Datetime) : Datetime :=
  if 1 < t.day then ⟨t.year, t.month, t.day - 1, t.hour⟩
  else if 1 < t.month then ⟨t.year, t.month - 1, daysInMonth t.year (t.month - 1), t.hour⟩
  else ⟨t.year - 1, 12, 31, t.hour⟩

/-- One observation row of the storm-track table.  The timestamp
component columns are explicit fields; the string-valued columns
(atcf_code, system_status, the grouping column) live in `scols` and the
numeric feature columns (longitude, latitude, ...) in `cols`, both as
association lists keyed by column name. -/
structure Row where
  year : Nat
  month : Nat
  day : Nat
  hour : Nat
  scols : List (String × String)
  cols : List (String × Int)
  deriving DecidableEq, Repr

/-- Access a string-valued column of a row. -/
def rowScol (r : Row) (c : String) : Option String := r.scols.lookup c

/-- Access a numeric column of a row. -/
def rowCol (r : Row) (c : String) : Option Int := r.cols.lookup c

/-- Column access that raises KeyError when the column is absent. -/
def rowScolE (r : Row) (c : String) : Except GenError String :=
  match rowScol r c with
  | some v => Except.ok v
  | none => Except.error GenError.keyError

/-- Numeric column access that raises KeyError when the column is absent. -/
def rowColE (r : Row) (c : String) : Except GenError Int :=
  match rowCol r c with
  | some v => Except.ok v
  | none => Except.error GenError.keyError

/-- Constructor arguments of HURDATPlus that shape generation. -/
structure Config where
  input_vars : List String
  target_vars : List String
  grouping_var : String
  past_horizon : Nat
  future_horizon : Nat
  deriving DecidableEq, Repr

/-- The optional OISST raster environment: the index table (its datetime
and processed_file_path columns, in row order) and the np.load result for
each file path, abstracted to the raw array shape (H0, W0, C). -/
structure OisstEnv where
  index : List (String × String)
  files : String → Option (Nat × Nat × Nat)

/-- One generated sample (the data_window dict of the source). -/
structure Sample where
  input : List (List Int)
  input_dt : List String
  output : List (List Int)
  output_dt : List String
  atcf_code : String
  input_oisst : Option (Nat × Nat × Nat × Nat)
  deriving DecidableEq, Repr

/-- Effectful map over a list: the first failing element aborts the
whole loop, as in Python. -/
def mapE {α β : Type} (f : α → Except GenError β) : List α → Except GenError (List β)
  | [] => Except.ok []
  | x :: xs => (f x).bind fun y => (mapE f xs).bind fun ys => Except.ok (y :: ys)

/-- Sliding windows produced by iterating pandas
DataFrame.rolling(window=n): one window per row, ending at that row and
holding the up-to-n rows before and including it. -/
def rollingWindows (n : Nat) (rows : List Row) : List (List Row) :=
  (List.range rows.length).map fun i => (rows.take (i + 1)).drop (i + 1 - n)

/-- Shape action of the torchvision Resize((64,128)) transform stored as
self.oisst_resizer: a (C, H, W) tensor becomes (C, 64, 128). -/
def oisst_resizer (s : Nat × Nat × Nat) : Nat × Nat × Nat := (s.1, 64, 128)

/-- The raster index key computed for an input timestep: one calendar day
before the timestep, formatted "%Y-%m-%d" (source lines 114-115). -/
def oisstLookupKey (t : Datetime) : String := fmtDate (subOneDay t)

/-- One iteration of the raster-attachment loop: filter the index table
on the lagged date string, require exactly one match (Series.item()),
np.load the file, move the channel axis to the front and resize. -/
def fetchOisst (e : OisstEnv) (t : Datetime) : Except GenError (Nat × Nat × Nat) :=
  let dt_str := oisstLookupKey t
  match e.index.filter (fun ent => ent.1 == dt_str) with
  | [ent] =>
    match e.files ent.2 with
    | none => Except.error GenError.loadError
    | some raw => Except.ok (oisst_resizer (raw.2.2, raw.1, raw.2.1))
  | _ => Except.error GenError.lookupError

/-- The raster-attachment loop over all input-portion timesteps. -/
def attachOisst (e : OisstEnv) (ts : List Datetime) : Except GenError (List (Nat × Nat × Nat)) :=
  mapE (fetchOisst e) ts

/-- Shape action of torch.stack: requires a nonempty list of tensors of
equal shape and prepends the list length as the new leading dimension. -/
def stackShapes : List (Nat × Nat × Nat) → Except GenError (Nat × Nat × Nat × Nat)
  | [] => Except.error GenError.runtimeError
  | s :: rest =>
    if rest.all (fun t => t == s) then Except.ok (rest.length + 1, s.1, s.2.1, s.2.2)
    else Except.error GenError.runtimeError

/-- Column extraction slice[vars].values: one list of values per row, in
row order, one entry per requested variable. -/
def extractVars (vars : List String) (slice : List Row) : Except GenError (List (List Int)) :=
  mapE (fun r => mapE (fun v => rowColE r v) vars) slice

/-- Per-row datetime.datetime construction from the year, month, day and
hour columns of a slice. -/
def sliceDT (slice : List Row) : Except GenError (List Datetime) :=
  mapE (fun r => mkDatetime r.year r.month r.day r.hour) slice

/-- w["atcf_code"].iloc[0]: the storm identifier from the first row of
the full window. -/
def firstAtcf (w : List Row) : Except GenError String :=
  match w with
  | [] => Except.error GenError.indexError
  | r :: _ => rowScolE r "atcf_code"

/-- Body of the per-window sample construction (source lines 86-127),
run after the size and status gates have passed.  Note that the output
timestamps are rebuilt from input_slice exactly as in source lines
101-106. -/
def buildSampleCore (cfg : Config) (env : Option OisstEnv) (w : List Row) :
    Except GenError Sample :=
  let input_slice := w.take cfg.past_horizon
  (extractVars cfg.input_vars input_slice).bind fun input =>
  (sliceDT input_slice).bind fun input_dtv =>
  let input_dt := input_dtv.map fmtDatetime
  let output_slice := w.take cfg.past_horizon
  (extractVars cfg.target_vars output_slice).bind fun output =>
  (sliceDT input_slice).bind fun output_dtv =>
  let output_dt := output_dtv.map fmtDatetime
  (firstAtcf w).bind fun code =>
  match env with
  | none => Except.ok ⟨input, input_dt, output, output_dt, code, none⟩
  | some e =>
    (attachOisst e input_dtv).bind fun shapes =>
    (stackShapes shapes).bind fun stacked =>
    Except.ok ⟨input, input_dt, output, output_dt, code, some stacked⟩

/-- One iteration of the window loop of generate_storm_ts_samples:
`ok none` means the window was skipped by a continue (wrong size, or
gate status outside TS/HU); `ok (some s)` appends sample s. -/
def buildWindowSample (cfg : Config) (env : Option OisstEnv) (w : List Row) :
    Except GenError (Option Sample) :=
  if w.length ≠ cfg.past_horizon + cfg.future_horizon then Except.ok none
  else
    match (w.take cfg.past_horizon).getLast? with
    | none => Except.error GenError.indexError
    | some gate =>
      match rowScol gate "system_status" with
      | none => Except.error GenError.keyError
      | some st =>
        if st = "TS" ∨ st = "HU" then (buildSampleCore cfg env w).map (fun s => some s)
        else Except.ok none

/-- The window loop, threading the accumulated sample list. -/
def generate_storm_go (cfg : Config) (env : Option OisstEnv) :
    List (List Row) → List Sample → Except GenError (List Sample)
  | [], acc => Except.ok acc
  | w :: ws, acc =>
    (buildWindowSample cfg env w).bind fun o =>
      match o with
      | none => generate_storm_go cfg env ws acc
      | some s => generate_storm_go cfg env ws (acc ++ [s])

/-- HURDATPlus.generate_storm_ts_samples. -/
def generate_storm_ts_samples (cfg : Config) (env : Option OisstEnv) (storm : List Row) :
    Except GenError (List Sample) :=
  generate_storm_go cfg env (rollingWindows (cfg.past_horizon + cfg.future_horizon) storm) []

/-- Keep the first occurrence of every key, dropping later duplicates. -/
def dedupFirstAux (seen : List String) : List String → List String
  | [] => []
  | k :: ks =>
    if seen.contains k then dedupFirstAux seen ks
    else k :: dedupFirstAux (k :: seen) ks

/-- Keys in order of first occurrence. -/
def dedupFirst (ks : List String) : List String := dedupFirstAux [] ks

/-- pandas groupby(grouping_var, sort=False): groups keyed by the value
of the grouping column, in order of first occurrence, each group holding
its rows in original order. -/
def groupByKey (g : String) (rows : List Row) : Except GenError (List (String × List Row)) :=
  (mapE (fun r => rowScolE r g) rows).bind fun keys =>
  Except.ok ((dedupFirst keys).map fun k => (k, rows.filter fun r => rowScol r g == some k))

/-- The group loop of generate_all_ts_samples, extending the running
sample list with each storm's samples. -/
def generate_all_go (cfg : Config) (env : Option OisstEnv) :
    List (String × List Row) → List Sample → Except GenError (List Sample)
  | [], acc => Except.ok acc
  | g :: gs, acc =>
    (generate_storm_ts_samples cfg env g.2).bind fun ss =>
      generate_all_go cfg env gs (acc ++ ss)

/-- HURDATPlus.generate_all_ts_samples, the generation run at
construction time. -/
def generate_all_ts_samples (cfg : Config) (env : Option OisstEnv) (table : List Row) :
    Except GenError (List Sample) :=
  (groupByKey cfg.grouping_var table).bind fun groups =>
  generate_all_go cfg env groups []

/- Helper lemmas about the embedding's effect combinators. -/

theorem exBindOk {α β : Type} {x : Except GenError α} {f : α → Except GenError β} {b : β}
    (h : x.bind f = Except.ok b) : ∃ a, x = Except.ok a ∧ f a = Except.ok b := by
  cases x with
  | ok a => exact ⟨a, rfl, h⟩
  | error e => exact Except.noConfusion h

theorem exMapOk {α β : Type} {x : Except GenError α} {g : α → β} {b : β}
    (h : x.map g = Except.ok b) : ∃ a, x = Except.ok a ∧ g a = b := by
  cases x with
  | ok a =>
    simp only [Except.map] at h
    exact ⟨a, rfl, by injection h⟩
  | error e => exact Except.noConfusion h

theorem mapE_length {α β : Type} {f : α → Except GenError β} :
    ∀ {xs : List α} {ys : List β}, mapE f xs = Except.ok ys → ys.length = xs.length := by
  intro xs
  induction xs with
  | nil =>
    intro ys h
    injection h with h
    subst h
    rfl
  | cons x xs ih =>
    intro ys h
    obtain ⟨y, hy, h⟩ := exBindOk h
    obtain ⟨ys2, hys, h⟩ := exBindOk h
    injection h with h
    subst h
    simp [ih hys]

theorem mapE_mem_right {α β : Type} {f : α → Except GenError β} :
    ∀ {xs : List α} {ys : List β}, mapE f xs = Except.ok ys →
      ∀ y ∈ ys, ∃ x ∈ xs, f x = Except.ok y := by
  intro xs
  induction xs with
  | nil =>
    intro ys h
    injection h with h
    subst h
    intro y hy
    exact absurd hy (List.not_mem_nil y)
  | cons x xs ih =>
    intro ys h
    obtain ⟨y0, hy0, h⟩ := exBindOk h
    obtain ⟨ys2, hys, h⟩ := exBindOk h
    injection h with h
    subst h
    intro y hy
    rcases List.mem_cons.mp hy with h1 | h1
    · subst h1
      exact ⟨x, List.mem_cons_self x xs, hy0⟩
    · obtain ⟨x1, hx1, hfx1⟩ := ih hys y h1
      exact ⟨x1, List.mem_cons_of_mem x hx1, hfx1⟩

theorem mapE_mem_left {α β : Type} {f : α → Except GenError β} :
    ∀ {xs : List α} {ys : List β}, mapE f xs = Except.ok ys →
      ∀ x ∈ xs, ∃ y ∈ ys, f x = Except.ok y := by
  intro xs
  induction xs with
  | nil =>
    intro ys h x hx
    exact absurd hx (List.not_mem_nil x)
  | cons x0 xs ih =>
    intro ys h
    obtain ⟨y0, hy0, h⟩ := exBindOk h
    obtain ⟨ys2, hys, h⟩ := exBindOk h
    injection h with h
    subst h
    intro x hx
    rcases List.mem_cons.mp hx with h1 | h1
    · subst h1
      exact ⟨y0, List.mem_cons_self y0 ys2, hy0⟩
    · obtain ⟨y1, hy1, hfy1⟩ := ih hys x h1
      exact ⟨y1, List.mem_cons_of_mem y0 hy1, hfy1⟩

theorem buildSampleCore_ok {cfg : Config} {env : Option OisstEnv} {w : List Row} {s : Sample}
    (h : buildSampleCore cfg env w = Except.ok s) :
    ∃ input dtv output code,
      extractVars cfg.input_vars (w.take cfg.past_horizon) = Except.ok input ∧
      sliceDT (w.take cfg.past_horizon) = Except.ok dtv ∧
      extractVars cfg.target_vars (w.take cfg.past_horizon) = Except.ok output ∧
      firstAtcf w = Except.ok code ∧
      s.input = input ∧ s.input_dt = dtv.map fmtDatetime ∧
      s.output = output ∧ s.output_dt = dtv.map fmtDatetime ∧ s.atcf_code = code ∧
      ((env = none ∧ s.input_oisst = none) ∨
        ∃ e shapes stacked, env = some e ∧ attachOisst e dtv = Except.ok shapes ∧
          stackShapes shapes = Except.ok stacked ∧ s.input_oisst = some stacked) := by
  simp only [buildSampleCore] at h
  obtain ⟨input, hin, h⟩ := exBindOk h
  obtain ⟨dtv, hdtv, h⟩ := exBindOk h
  obtain ⟨output, hout, h⟩ := exBindOk h
  obtain ⟨dtv2, hdtv2, h⟩ := exBindOk h
  rw [hdtv] at hdtv2
  injection hdtv2 with hdtv2
  subst hdtv2
  obtain ⟨code, hcode, h⟩ := exBindOk h
  cases env with
  | none =>
    injection h with h
    subst h
    exact ⟨input, dtv, output, code, hin, hdtv, hout, hcode,
      rfl, rfl, rfl, rfl, rfl, Or.inl ⟨rfl, rfl⟩⟩
  | some e =>
    obtain ⟨shapes, hatt, h⟩ := exBindOk h
    obtain ⟨stacked, hstack, h⟩ := exBindOk h
    injection h with h
    subst h
    exact ⟨input, dtv, output, code, hin, hdtv, hout, hcode,
      rfl, rfl, rfl, rfl, rfl, Or.inr ⟨e, shapes, stacked, rfl, hatt, hstack, rfl⟩⟩

theorem buildWindowSample_ok_some {cfg : Config} {env : Option OisstEnv} {w : List Row}
    {s : Sample} (h : buildWindowSample cfg env w = Except.ok (some s)) :
    w.length = cfg.past_horizon + cfg.future_horizon ∧
    ∃ gate st, (w.take cfg.past_horizon).getLast? = some gate ∧
      rowScol gate "system_status" = some st ∧ (st = "TS" ∨ st = "HU") ∧
      buildSampleCore cfg env w = Except.ok s := by
  unfold buildWindowSample at h
  split at h
  · simp at h
  · rename_i hl
    push_neg at hl
    refine ⟨hl, ?_⟩
    split at h
    · exact Except.noConfusion h
    · rename_i gate hg
      split at h
      · exact Except.noConfusion h
      · rename_i st hst
        split at h
        · rename_i hts
          obtain ⟨s2, hcore, hmap⟩ := exMapOk h
          injection hmap with hmap
          subst hmap
          exact ⟨gate, st, hg, hst, hts, hcore⟩
        · simp at h

theorem buildWindowSample_size_skip {cfg : Config} {env : Option OisstEnv} {w : List Row}
    (h : w.length ≠ cfg.past_horizon + cfg.future_horizon) :
    buildWindowSample cfg env w = Except.ok none := by
  unfold buildWindowSample
  rw [if_pos h]

theorem buildWindowSample_status_skip {cfg : Config} {env : Option OisstEnv} {w : List Row}
    {gate : Row} {st : String} (hg : (w.take cfg.past_horizon).getLast? = some gate)
    (hst : rowScol gate "system_status" = some st) (h1 : st ≠ "TS") (h2 : st ≠ "HU") :
    buildWindowSample cfg env w = Except.ok none := by
  unfold buildWindowSample
  split
  · rfl
  · simp [hg, hst, h1, h2]

instance {ε α : Type} [DecidableEq ε] [DecidableEq α] : DecidableEq (Except ε α) := fun x y =>
  match x, y with
  | .ok a, .ok b =>
    if h : a = b then isTrue (by rw [h])
    else isFalse (fun hc => h (by injection hc))
  | .error a, .error b =>
    if h : a = b then isTrue (by rw [h])
    else isFalse (fun hc => h (by injection hc))
  | .ok _, .error _ => isFalse (fun hc => Except.noConfusion hc)
  | .error _, .ok _ => isFalse (fun hc => Except.noConfusion hc)

theorem generate_storm_go_mem {cfg : Config} {env : Option OisstEnv} :
    ∀ {ws : List (List Row)} {acc res : List Sample},
      generate_storm_go cfg env ws acc = Except.ok res →
      ∀ s ∈ res, s ∈ acc ∨ ∃ w ∈ ws, buildWindowSample cfg env w = Except.ok (some s) := by
  intro ws
  induction ws with
  | nil =>
    intro acc res h s hs
    injection h with h
    subst h
    exact Or.inl hs
  | cons w ws ih =>
    intro acc res h s hs
    obtain ⟨o, ho, h⟩ := exBindOk h
    cases o with
    | none =>
      rcases ih h s hs with h1 | ⟨w1, hw1, hb⟩
      · exact Or.inl h1
      · exact Or.inr ⟨w1, List.mem_cons_of_mem w hw1, hb⟩
    | some s0 =>
      rcases ih h s hs with h1 | ⟨w1, hw1, hb⟩
      · rcases List.mem_append.mp h1 with h2 | h2
        · exact Or.inl h2
        · have hss : s = s0 := by simpa using h2
          subst hss
          exact Or.inr ⟨w, List.mem_cons_self w ws, ho⟩
      · exact Or.inr ⟨w1, List.mem_cons_of_mem w hw1, hb⟩

theorem extractVars_eq (vars : List String) (slice : List Row) :
    extractVars vars slice = mapE (fun r => mapE (fun v => rowColE r v) vars) slice := rfl

/- Concrete fixtures shared by several witnesses below. -/

/-- A concrete track row of September 2020 with a given day and status. -/
def wRow (d : Nat) (st : String) : Row :=
  { year := 2020, month := 9, day := d, hour := 0,
    scols := [("atcf_code", "AL012020"), ("system_status", st)],
    cols := [("longitude", (d : Int)), ("latitude", 20)] }

/-- A small concrete configuration: two input variables, one target
variable, past_horizon 2, future_horizon 1. -/
def wCfg : Config :=
  { input_vars := ["longitude", "latitude"], target_vars := ["longitude"],
    grouping_var := "atcf_code", past_horizon := 2, future_horizon := 1 }

/-- A three-row storm whose single full window has gate status HU. -/
def wStorm : List Row := [wRow 1 "TS", wRow 2 "HU", wRow 3 "TD"]

/-- The only sample generated from wStorm under wCfg. -/
def wSample : Sample :=
  { input := [[1, 20], [2, 20]],
    input_dt := ["2020-09-01 00:00:00", "2020-09-02 00:00:00"],
    output := [[1], [2]],
    output_dt := ["2020-09-01 00:00:00", "2020-09-02 00:00:00"],
    atcf_code := "AL012020",
    input_oisst := none }

/-- A full-size window whose gate row (last row of the first
past_horizon rows) has status TD. -/
def wWinTD : List Row := [wRow 1 "TS", wRow 2 "TD", wRow 3 "HU"]

/-- C10: for every generated Sample, the output timestamp sequence is
elementwise equal to the input timestamp sequence: both are built from
the year/month/day/hour fields of the same leading past_horizon-row
slice of the window, formatted as "%Y-%m-%d %H:%M:%S" strings. -/
theorem claim10_output_dt_eq_input_dt (cfg : Config) (env : Option OisstEnv)
    (w : List Row) (s : Sample)
    (h : buildWindowSample cfg env w = Except.ok (some s)) :
    s.output_dt = s.input_dt ∧
    ∃ dtv, sliceDT (w.take cfg.past_horizon) = Except.ok dtv ∧
      s.input_dt = dtv.map fmtDatetime := by
  obtain ⟨-, gate, st, -, -, -, hcore⟩ := buildWindowSample_ok_some h
  obtain ⟨input, dtv, output, code, -, hdtv, -, -, -, hidt, -, hodt, -, -⟩ :=
    buildSampleCore_ok hcore
  exact ⟨by rw [hodt, hidt], dtv, hdtv, hidt⟩

/-- Witness for C10 at a concrete window. -/
theorem claim10_output_dt_eq_input_dt_witness :
    buildWindowSample wCfg none wStorm = Except.ok (some wSample) ∧
    wSample.output_dt = wSample.input_dt :=
  ⟨rfl, (claim10_output_dt_eq_input_dt wCfg none wStorm wSample rfl).1⟩

/-- C1: for every generated Sample, the input portion is the first
past_horizon rows of the window and the target portion is ALSO the first
past_horizon rows of the same window, so input has shape
(past_horizon, |input_vars|) and output has shape
(past_horizon, |target_vars|) exactly; the trailing future_horizon rows
contribute no values to output. -/
theorem claim1_sample_shapes (cfg : Config) (env : Option OisstEnv) (storm : List Row)
    (samples : List Sample) (s : Sample)
    (hgen : generate_storm_ts_samples cfg env storm = Except.ok samples)
    (hs : s ∈ samples) :
    s.input.length = cfg.past_horizon ∧
    (∀ v ∈ s.input, v.length = cfg.input_vars.length) ∧
    s.output.length = cfg.past_horizon ∧
    (∀ v ∈ s.output, v.length = cfg.target_vars.length) ∧
    ∃ w ∈ rollingWindows (cfg.past_horizon + cfg.future_horizon) storm,
      w.length = cfg.past_horizon + cfg.future_horizon ∧
      extractVars cfg.input_vars (w.take cfg.past_horizon) = Except.ok s.input ∧
      extractVars cfg.target_vars (w.take cfg.past_horizon) = Except.ok s.output := by
  unfold generate_storm_ts_samples at hgen
  rcases generate_storm_go_mem hgen s hs with h1 | ⟨w, hw, hb⟩
  · exact absurd h1 (List.not_mem_nil s)
  · obtain ⟨hl, gate, st, -, -, -, hcore⟩ := buildWindowSample_ok_some hb
    obtain ⟨input, dtv, output, code, hin, -, hout, -, hsi, -, hso, -, -, -⟩ :=
      buildSampleCore_ok hcore
    subst hsi
    subst hso
    have hslice : (w.take cfg.past_horizon).length = cfg.past_horizon := by
      rw [List.length_take, hl]
      omega
    rw [extractVars_eq] at hin hout
    have hinlen : s.input.length = cfg.past_horizon := by
      rw [mapE_length hin, hslice]
    have houtlen : s.output.length = cfg.past_horizon := by
      rw [mapE_length hout, hslice]
    refine ⟨hinlen, ?_, houtlen, ?_, w, hw, hl, ?_, ?_⟩
    · intro v hv
      obtain ⟨r, -, hr⟩ := mapE_mem_right hin v hv
      exact mapE_length hr
    · intro v hv
      obtain ⟨r, -, hr⟩ := mapE_mem_right hout v hv
      exact mapE_length hr
    · rw [extractVars_eq]
      exact hin
    · rw [extractVars_eq]
      exact hout

/-- Witness for C1 at a concrete storm. -/
theorem claim1_sample_shapes_witness :
    generate_storm_ts_samples wCfg none wStorm = Except.ok [wSample] ∧
    wSample ∈ [wSample] ∧
    wSample.input.length = wCfg.past_horizon ∧
    wSample.output.length = wCfg.past_horizon := by
  have h := claim1_sample_shapes wCfg none wStorm [wSample] wSample rfl
    (List.mem_singleton.mpr rfl)
  exact ⟨rfl, List.mem_singleton.mpr rfl, h.1, h.2.2.1⟩

/-- C2: for every generated Sample, the intensity status of the last row
of the window's first past_horizon rows is in the set TS, HU; every
full-size window whose row at that position has any other status (such
as TD) is discarded and produces no Sample. -/
theorem claim2_status_gate (cfg : Config) (env : Option OisstEnv) (w : List Row) :
    (∀ s : Sample, buildWindowSample cfg env w = Except.ok (some s) →
      ∃ gate, (w.take cfg.past_horizon).getLast? = some gate ∧
        (rowScol gate "system_status" = some "TS" ∨
         rowScol gate "system_status" = some "HU")) ∧
    (∀ (gate : Row) (st : String), (w.take cfg.past_horizon).getLast? = some gate →
      rowScol gate "system_status" = some st → st ≠ "TS" → st ≠ "HU" →
      buildWindowSample cfg env w = Except.ok none) := by
  constructor
  · intro s h
    obtain ⟨-, gate, st, hg, hst, hts, -⟩ := buildWindowSample_ok_some h
    rcases hts with h1 | h1
    · subst h1
      exact ⟨gate, hg, Or.inl hst⟩
    · subst h1
      exact ⟨gate, hg, Or.inr hst⟩
  · intro gate st hg hst h1 h2
    exact buildWindowSample_status_skip hg hst h1 h2

/-- Witness for C2: a full-size window with a TD gate row yields no
sample. -/
theorem claim2_status_gate_witness :
    (wWinTD.take wCfg.past_horizon).getLast? = some (wRow 2 "TD") ∧
    rowScol (wRow 2 "TD") "system_status" = some "TD" ∧
    buildWindowSample wCfg none wWinTD = Except.ok none :=
  ⟨rfl, rfl,
    (claim2_status_gate wCfg none wWinTD).2 (wRow 2 "TD") "TD" rfl rfl
      (by decide) (by decide)⟩

theorem rollingWindows_length_le {n : Nat} {rows : List Row} :
    ∀ w ∈ rollingWindows n rows, w.length ≤ rows.length := by
  intro w hw
  simp only [rollingWindows, List.mem_map, List.mem_range] at hw
  obtain ⟨i, hi, rfl⟩ := hw
  simp only [List.length_drop, List.length_take]
  omega

theorem generate_storm_go_all_skip {cfg : Config} {env : Option OisstEnv} :
    ∀ {ws : List (List Row)} {acc : List Sample},
      (∀ w ∈ ws, buildWindowSample cfg env w = Except.ok none) →
      generate_storm_go cfg env ws acc = Except.ok acc := by
  intro ws
  induction ws with
  | nil => intro acc h; rfl
  | cons w ws ih =>
    intro acc h
    have hw := h w (List.mem_cons_self w ws)
    have hgo : generate_storm_go cfg env (w :: ws) acc =
        (buildWindowSample cfg env w).bind fun o =>
          match o with
          | none => generate_storm_go cfg env ws acc
          | some s => generate_storm_go cfg env ws (acc ++ [s]) := rfl
    rw [hgo, hw]
    exact ih fun w1 hw1 => h w1 (List.mem_cons_of_mem w hw1)

/-- The 13-row storm of the end-to-end example: days 1..13 of September
2020, every row with status HU. -/
def storm13 : List Row := (List.range 13).map fun i => wRow (i + 1) "HU"

/-- The configuration of the end-to-end example: past_horizon 12,
future_horizon 1. -/
def cfg13 : Config :=
  { input_vars := ["longitude"], target_vars := ["latitude"],
    grouping_var := "atcf_code", past_horizon := 12, future_horizon := 1 }

/-- C3: windows are slid with size past_horizon + future_horizon and
stride 1 and any window with fewer rows is discarded, hence a storm
group with fewer than past_horizon + future_horizon rows yields zero
samples; and a storm with exactly 13 rows under past_horizon 12 and
future_horizon 1 whose eligibility row has status HU yields exactly one
sample. -/
theorem claim3_window_size :
    (∀ (cfg : Config) (env : Option OisstEnv) (storm : List Row),
      storm.length < cfg.past_horizon + cfg.future_horizon →
      generate_storm_ts_samples cfg env storm = Except.ok []) ∧
    (generate_storm_ts_samples cfg13 none storm13).toOption.map List.length = some 1 := by
  constructor
  · intro cfg env storm hlen
    unfold generate_storm_ts_samples
    refine generate_storm_go_all_skip fun w hw => ?_
    have hle := rollingWindows_length_le w hw
    exact buildWindowSample_size_skip (by omega)
  · rfl

/-- Witness for C3: a three-row storm yields no samples when the window
size is 13. -/
theorem claim3_window_size_witness :
    wStorm.length < cfg13.past_horizon + cfg13.future_horizon ∧
    generate_storm_ts_samples cfg13 none wStorm = Except.ok [] :=
  ⟨by decide, claim3_window_size.1 cfg13 none wStorm (by decide)⟩

theorem sliceDT_eq (slice : List Row) :
    sliceDT slice = mapE (fun r => mkDatetime r.year r.month r.day r.hour) slice := rfl

theorem attachOisst_eq (e : OisstEnv) (ts : List Datetime) :
    attachOisst e ts = mapE (fetchOisst e) ts := rfl

theorem fetchOisst_ok_filter {e : OisstEnv} {t : Datetime} {sh : Nat × Nat × Nat}
    (h : fetchOisst e t = Except.ok sh) :
    (e.index.filter (fun ent => ent.1 == oisstLookupKey t)).length = 1 ∧
    sh.2.1 = 64 ∧ sh.2.2 = 128 := by
  simp only [fetchOisst] at h
  split at h
  · rename_i ent heq
    constructor
    · rw [heq]
      rfl
    · split at h
      · exact Except.noConfusion h
      · injection h with h
        subst h
        exact ⟨rfl, rfl⟩
  · exact Except.noConfusion h

theorem fetchOisst_not_unique {e : OisstEnv} {t : Datetime}
    (h : (e.index.filter (fun ent => ent.1 == oisstLookupKey t)).length ≠ 1) :
    fetchOisst e t = Except.error GenError.lookupError := by
  simp only [fetchOisst]
  split
  · rename_i ent heq
    exact absurd (by rw [heq]; rfl) h
  · rfl

theorem stackShapes_ok {shapes : List (Nat × Nat × Nat)} {st4 : Nat × Nat × Nat × Nat}
    (h : stackShapes shapes = Except.ok st4) :
    ∃ s0 rest, shapes = s0 :: rest ∧ st4 = (shapes.length, s0.1, s0.2.1, s0.2.2) ∧
      ∀ x ∈ shapes, x = s0 := by
  cases shapes with
  | nil => exact Except.noConfusion h
  | cons s0 rest =>
    have h2 : (if rest.all (fun t => t == s0) then
        Except.ok (rest.length + 1, s0.1, s0.2.1, s0.2.2)
      else (Except.error GenError.runtimeError : Except GenError (Nat × Nat × Nat × Nat))) =
        Except.ok st4 := h
    split at h2
    · rename_i hall
      simp only [List.all_eq_true, beq_iff_eq] at hall
      injection h2 with h2
      subst h2
      refine ⟨s0, rest, rfl, by simp, ?_⟩
      intro x hx
      rcases List.mem_cons.mp hx with h1 | h1
      · exact h1
      · exact hall x h1
    · exact Except.noConfusion h2

theorem fetchOisst_ok_inv {e : OisstEnv} {t : Datetime} {sh : Nat × Nat × Nat}
    (h : fetchOisst e t = Except.ok sh) :
    ∃ ent h0 w0 c0, e.index.filter (fun x => x.1 == oisstLookupKey t) = [ent] ∧
      e.files ent.2 = some (h0, w0, c0) ∧ sh = (c0, 64, 128) := by
  simp only [fetchOisst] at h
  split at h
  · rename_i ent heq
    split at h
    · exact Except.noConfusion h
    · rename_i raw hraw
      injection h with h
      subst h
      exact ⟨ent, raw.1, raw.2.1, raw.2.2, heq, hraw, rfl⟩
  · exact Except.noConfusion h

/- Concrete raster fixtures matching the spec's alignment example. -/

/-- A three-row storm whose input timesteps are 2020-09-10 and
2020-09-11. -/
def wStorm10 : List Row := [wRow 10 "TS", wRow 11 "HU", wRow 12 "TD"]

/-- A raster index holding exactly the two lagged dates 2020-09-09 and
2020-09-10, with loadable files of raw shape (30, 40, 3). -/
def wEnv10 : OisstEnv :=
  { index := [("2020-09-09", "a.npy"), ("2020-09-10", "b.npy")],
    files := fun p => if p == "a.npy" || p == "b.npy" then some (30, 40, 3) else none }

/-- The sample generated from wStorm10 under wCfg with wEnv10 attached. -/
def wSample10 : Sample :=
  { input := [[10, 20], [11, 20]],
    input_dt := ["2020-09-10 00:00:00", "2020-09-11 00:00:00"],
    output := [[10], [11]],
    output_dt := ["2020-09-10 00:00:00", "2020-09-11 00:00:00"],
    atcf_code := "AL012020",
    input_oisst := some (2, 3, 64, 128) }

/-- A raster index holding only 2020-09-10, so the lagged lookup for the
timestep 2020-09-10 00:00:00 (which needs 2020-09-09) fails. -/
def wEnvBad : OisstEnv :=
  { index := [("2020-09-10", "b.npy")],
    files := fun p => if p == "b.npy" then some (30, 40, 3) else none }

/-- C4: when a raster index table is supplied, for every input-portion
timestep the raster lookup date equals that timestep's calendar date
minus one day, formatted as a YYYY-MM-DD string: a produced sample
requires the index to match that lagged date (uniquely) for every row of
the input portion. -/
theorem claim4_raster_lag (cfg : Config) (e : OisstEnv) (w : List Row) (s : Sample)
    (h : buildWindowSample cfg (some e) w = Except.ok (some s)) :
    ∀ r ∈ w.take cfg.past_horizon,
      ∃ t : Datetime, mkDatetime r.year r.month r.day r.hour = Except.ok t ∧
        (e.index.filter (fun ent => ent.1 == fmtDate (subOneDay t))).length = 1 := by
  obtain ⟨-, gate, st, -, -, -, hcore⟩ := buildWindowSample_ok_some h
  obtain ⟨input, dtv, output, code, -, hdtv, -, -, -, -, -, -, -, hoisst⟩ :=
    buildSampleCore_ok hcore
  rcases hoisst with ⟨henv, -⟩ | ⟨e2, shapes, stacked, henv, hatt, -, -⟩
  · exact absurd henv (by simp)
  · injection henv with henv
    subst henv
    intro r hr
    rw [sliceDT_eq] at hdtv
    obtain ⟨t, ht, hmk⟩ := mapE_mem_left hdtv r hr
    refine ⟨t, hmk, ?_⟩
    rw [attachOisst_eq] at hatt
    obtain ⟨sh, -, hfetch⟩ := mapE_mem_left hatt t ht
    exact (fetchOisst_ok_filter hfetch).1

/-- Witness for C4: the timestep 2020-09-10 00:00:00 resolves through
index date 2020-09-09. -/
theorem claim4_raster_lag_witness :
    fmtDate (subOneDay ⟨2020, 9, 10, 0⟩) = "2020-09-09" ∧
    buildWindowSample wCfg (some wEnv10) wStorm10 = Except.ok (some wSample10) ∧
    (wEnv10.index.filter
      (fun ent => ent.1 == fmtDate (subOneDay ⟨2020, 9, 10, 0⟩))).length = 1 := by
  refine ⟨rfl, rfl, ?_⟩
  obtain ⟨t, hmk, hflt⟩ :=
    claim4_raster_lag wCfg wEnv10 wStorm10 wSample10 rfl (wRow 10 "TS")
      (List.mem_cons_self _ _)
  have h0 : (Except.ok (Datetime.mk 2020 9 10 0) : Except GenError Datetime) = Except.ok t := by
    rw [← hmk]
    rfl
  injection h0 with h0
  rw [h0]
  exact hflt

/-- C5: generation fails with a LookupError whenever a raster lookup
date matches zero entries or more than one entry in the raster index
table (exactly-one match is required); a produced sample implies the
whole raster-attachment loop succeeded, so no partial sample is produced
for a window whose attachment fails. -/
theorem claim5_raster_lookup_unique :
    (∀ (e : OisstEnv) (pre : List Datetime) (t : Datetime) (post : List Datetime),
      (∀ d ∈ pre, ∃ sh, fetchOisst e d = Except.ok sh) →
      (e.index.filter (fun ent => ent.1 == oisstLookupKey t)).length ≠ 1 →
      attachOisst e (pre ++ t :: post) = Except.error GenError.lookupError) ∧
    (∀ (cfg : Config) (e : OisstEnv) (w : List Row) (s : Sample),
      buildWindowSample cfg (some e) w = Except.ok (some s) →
      ∃ dtv shapes, sliceDT (w.take cfg.past_horizon) = Except.ok dtv ∧
        attachOisst e dtv = Except.ok shapes) := by
  constructor
  · intro e pre
    induction pre with
    | nil =>
      intro t post hpre ht
      have hrest : attachOisst e ([] ++ t :: post) =
          (fetchOisst e t).bind fun y =>
            (mapE (fetchOisst e) post).bind fun ys => Except.ok (y :: ys) := rfl
      rw [hrest, fetchOisst_not_unique ht]
      rfl
    | cons d pre ih =>
      intro t post hpre ht
      obtain ⟨sh, hsh⟩ := hpre d (List.mem_cons_self d pre)
      have hrec := ih t post (fun d1 hd1 => hpre d1 (List.mem_cons_of_mem d hd1)) ht
      have hcons : attachOisst e ((d :: pre) ++ t :: post) =
          (fetchOisst e d).bind fun y =>
            (mapE (fetchOisst e) (pre ++ t :: post)).bind fun ys => Except.ok (y :: ys) := rfl
      rw [hcons, hsh]
      have hrec2 : mapE (fetchOisst e) (pre ++ t :: post) =
          Except.error GenError.lookupError := hrec
      rw [hrec2]
      rfl
  · intro cfg e w s h
    obtain ⟨-, gate, st, -, -, -, hcore⟩ := buildWindowSample_ok_some h
    obtain ⟨input, dtv, output, code, -, hdtv, -, -, -, -, -, -, -, hoisst⟩ :=
      buildSampleCore_ok hcore
    rcases hoisst with ⟨henv, -⟩ | ⟨e2, shapes, stacked, henv, hatt, -, -⟩
    · exact absurd henv (by simp)
    · injection henv with henv
      subst henv
      exact ⟨dtv, shapes, hdtv, hatt⟩

/-- Witness for C5: an index holding only 2020-09-10 cannot serve the
timestep 2020-09-10 00:00:00 (which needs 2020-09-09): the attachment
loop raises LookupError and storm generation aborts with it. -/
theorem claim5_raster_lookup_unique_witness :
    (wEnvBad.index.filter
      (fun ent => ent.1 == oisstLookupKey ⟨2020, 9, 10, 0⟩)).length = 0 ∧
    attachOisst wEnvBad [⟨2020, 9, 10, 0⟩, ⟨2020, 9, 11, 0⟩] =
      Except.error GenError.lookupError ∧
    generate_storm_ts_samples wCfg (some wEnvBad) wStorm10 =
      Except.error GenError.lookupError := by
  refine ⟨rfl, ?_, rfl⟩
  have h := claim5_raster_lookup_unique.1 wEnvBad [] ⟨2020, 9, 10, 0⟩ [⟨2020, 9, 11, 0⟩]
    (fun d hd => absurd hd (List.not_mem_nil d)) (by decide)
  exact h

/-- C9: for every sample that has raster data attached, each raw raster
of shape (H0, W0, C) is axis-reordered so the channel axis leads,
resized to spatial resolution 64 x 128, and the per-timestep rasters are
stacked in input-timestep order, so input_raster has shape
(past_horizon, C, 64, 128): the leading dimension is past_horizon, the
spatial dimensions are 64 and 128, and the channel dimension c equals
the raw raster's channel count (the trailing component of the loaded
shape) at every input timestep. -/
theorem claim9_raster_shape (cfg : Config) (env : Option OisstEnv) (w : List Row)
    (s : Sample) (n c hh ww : Nat)
    (hb : buildWindowSample cfg env w = Except.ok (some s))
    (hsh : s.input_oisst = some (n, c, hh, ww)) :
    n = cfg.past_horizon ∧ hh = 64 ∧ ww = 128 ∧
    ∃ e dtv, env = some e ∧ sliceDT (w.take cfg.past_horizon) = Except.ok dtv ∧
      dtv.length = cfg.past_horizon ∧
      ∀ t ∈ dtv, ∃ ent h0 w0,
        e.index.filter (fun x => x.1 == oisstLookupKey t) = [ent] ∧
        e.files ent.2 = some (h0, w0, c) ∧
        fetchOisst e t = Except.ok (c, 64, 128) := by
  obtain ⟨hl, gate, st, -, -, -, hcore⟩ := buildWindowSample_ok_some hb
  obtain ⟨input, dtv, output, code, -, hdtv, -, -, -, -, -, -, -, hoisst⟩ :=
    buildSampleCore_ok hcore
  rcases hoisst with ⟨-, hnone⟩ | ⟨e, shapes, stacked, henv, hatt, hstack, hsome⟩
  · rw [hnone] at hsh
    exact Option.noConfusion hsh
  · rw [hsome] at hsh
    injection hsh with hsh
    obtain ⟨s0, rest, hshape, hst4, hallsh⟩ := stackShapes_ok hstack
    have hdtv2 := hdtv
    rw [attachOisst_eq] at hatt
    rw [sliceDT_eq] at hdtv
    have hslice : dtv.length = cfg.past_horizon := by
      rw [mapE_length hdtv, List.length_take, hl]
      omega
    have hlen : shapes.length = cfg.past_horizon := by
      rw [mapE_length hatt]
      exact hslice
    obtain ⟨t0, -, hfetch0⟩ := mapE_mem_right hatt s0
      (by rw [hshape]; exact List.mem_cons_self s0 rest)
    obtain ⟨ent0, a0, b0, c0, -, -, hs0⟩ := fetchOisst_ok_inv hfetch0
    subst hs0
    rw [hst4] at hsh
    simp only [Prod.mk.injEq] at hsh
    obtain ⟨h1, h2, h3, h4⟩ := hsh
    have hc0c : c0 = c := h2
    refine ⟨by omega, by omega, by omega, e, dtv, henv, hdtv2, hslice, ?_⟩
    intro t ht
    obtain ⟨y, hy, hfetch⟩ := mapE_mem_left hatt t ht
    obtain ⟨ent, a, b, ct, hfl, hfile, hyeq⟩ := fetchOisst_ok_inv hfetch
    have hys0 := hallsh y hy
    rw [hyeq] at hys0
    simp only [Prod.mk.injEq] at hys0
    have hctc : ct = c := by
      rw [hys0.1]
      exact hc0c
    rw [hctc] at hfile
    rw [hyeq, hctc] at hfetch
    exact ⟨ent, a, b, hfl, hfile, hfetch⟩

/-- Witness for C9 at the concrete raster window: the attached stack has
shape (past_horizon, 3, 64, 128), where 3 is the raw rasters' channel
count, and the timestep 2020-09-10 00:00:00 contributes a resized
(3, 64, 128) raster. -/
theorem claim9_raster_shape_witness :
    buildWindowSample wCfg (some wEnv10) wStorm10 = Except.ok (some wSample10) ∧
    wSample10.input_oisst = some (2, 3, 64, 128) ∧
    2 = wCfg.past_horizon ∧
    fetchOisst wEnv10 ⟨2020, 9, 10, 0⟩ = Except.ok (3, 64, 128) := by
  have h := claim9_raster_shape wCfg (some wEnv10) wStorm10 wSample10 2 3 64 128 rfl rfl
  refine ⟨rfl, rfl, h.1, ?_⟩
  obtain ⟨-, -, -, e, dtv, henv, hdtv, -, hall⟩ := h
  injection henv with henv
  subst henv
  have hd0 : (Except.ok [Datetime.mk 2020 9 10 0, Datetime.mk 2020 9 11 0] :
      Except GenError (List Datetime)) = Except.ok dtv := by
    rw [← hdtv]
    rfl
  injection hd0 with hd0
  have hmem : Datetime.mk 2020 9 10 0 ∈ dtv := by
    rw [← hd0]
    exact List.mem_cons_self _ _
  obtain ⟨ent, h0, w0, -, -, hfetch⟩ := hall _ hmem
  exact hfetch

theorem mapE_cons {α β : Type} (f : α → Except GenError β) (x : α) (xs : List α) :
    mapE f (x :: xs) =
      (f x).bind fun y => (mapE f xs).bind fun ys => Except.ok (y :: ys) := rfl

theorem exOkBind {α β : Type} (a : α) (f : α → Except GenError β) :
    (Except.ok a : Except GenError α).bind f = f a := rfl

theorem exErrBind {α β : Type} (e : GenError) (f : α → Except GenError β) :
    (Except.error e : Except GenError α).bind f = Except.error e := rfl

theorem rowColE_error {r : Row} {v : String} {e : GenError}
    (h : rowColE r v = Except.error e) : e = GenError.keyError := by
  unfold rowColE at h
  split at h
  · exact Except.noConfusion h
  · injection h with h
    exact h.symm

theorem mapE_error_keyErr {α β : Type} {f : α → Except GenError β}
    (hf : ∀ x e, f x = Except.error e → e = GenError.keyError) :
    ∀ {xs : List α} {e : GenError}, mapE f xs = Except.error e → e = GenError.keyError := by
  intro xs
  induction xs with
  | nil =>
    intro e h
    exact Except.noConfusion h
  | cons x xs ih =>
    intro e h
    rw [mapE_cons] at h
    cases hfx : f x with
    | error e2 =>
      simp only [hfx, exErrBind] at h
      injection h with h
      rw [← h]
      exact hf x e2 hfx
    | ok y =>
      simp only [hfx, exOkBind] at h
      cases hrest : mapE f xs with
      | error e2 =>
        simp only [hrest, exErrBind] at h
        injection h with h
        rw [← h]
        exact ih hrest
      | ok ys =>
        simp only [hrest, exOkBind] at h
        exact Except.noConfusion h

theorem mapE_error_of_missing {α β : Type} {f : α → Except GenError β}
    (hf : ∀ x e, f x = Except.error e → e = GenError.keyError) :
    ∀ {xs : List α}, (∃ x ∈ xs, ∀ y, f x ≠ Except.ok y) →
      mapE f xs = Except.error GenError.keyError := by
  intro xs
  induction xs with
  | nil =>
    rintro ⟨x, hx, -⟩
    exact absurd hx (List.not_mem_nil x)
  | cons x0 xs ih =>
    rintro ⟨x, hx, hnx⟩
    cases hfx : f x0 with
    | error e =>
      rw [mapE_cons]
      simp only [hfx, exErrBind]
      rw [hf x0 e hfx]
    | ok y =>
      rcases List.mem_cons.mp hx with heq | hmem
      · subst heq
        exact absurd hfx (hnx y)
      · rw [mapE_cons]
        simp only [hfx, exOkBind]
        rw [ih ⟨x, hmem, hnx⟩]
        rfl

theorem extractVars_missing {vars : List String} {slice : List Row}
    (h : ∃ r ∈ slice, ∃ v ∈ vars, rowCol r v = none) :
    extractVars vars slice = Except.error GenError.keyError := by
  rw [extractVars_eq]
  obtain ⟨r, hr, v, hv, hnone⟩ := h
  refine mapE_error_of_missing ?_ ⟨r, hr, fun ys hys => ?_⟩
  · intro x e hx
    exact mapE_error_keyErr (fun x2 e2 h2 => rowColE_error h2) hx
  · obtain ⟨y, -, hy⟩ := mapE_mem_left hys v hv
    unfold rowColE at hy
    rw [hnone] at hy
    exact Except.noConfusion hy

theorem buildWindowSample_core_path {cfg : Config} {env : Option OisstEnv} {w : List Row}
    {gate : Row} {st : String}
    (hlen : w.length = cfg.past_horizon + cfg.future_horizon)
    (hg : (w.take cfg.past_horizon).getLast? = some gate)
    (hst : rowScol gate "system_status" = some st) (hts : st = "TS" ∨ st = "HU") :
    buildWindowSample cfg env w = (buildSampleCore cfg env w).map (fun s => some s) := by
  unfold buildWindowSample
  split
  · rename_i hne
    exact absurd hlen hne
  · simp only [hg]
    rcases hts with h | h
    · subst h
      simp [hst]
    · subst h
      simp [hst]

/- Concrete fixtures for the C6 counterexample and witness. -/

/-- A configuration with future_horizon 0, a non-positive horizon. -/
def cfg0 : Config :=
  { input_vars := ["longitude"], target_vars := ["latitude"],
    grouping_var := "atcf_code", past_horizon := 1, future_horizon := 0 }

/-- A one-row track table with every referenced column present. -/
def tbl0 : List Row := [wRow 5 "TS"]

/-- The sample generated from tbl0 under cfg0. -/
def sample0 : Sample :=
  { input := [[5]],
    input_dt := ["2020-09-05 00:00:00"],
    output := [[20]],
    output_dt := ["2020-09-05 00:00:00"],
    atcf_code := "AL012020",
    input_oisst := none }

/-- A configuration whose input variable vmax is absent from the rows. -/
def cfgMiss : Config :=
  { input_vars := ["vmax"], target_vars := ["latitude"],
    grouping_var := "atcf_code", past_horizon := 1, future_horizon := 0 }

/-- C6 counterexample: the claim says construction fails with a
ConfigurationError whenever past_horizon or future_horizon is
non-positive, but with future_horizon = 0 construction succeeds and even
produces a sample: no horizon validation exists in the code. -/
theorem claim6_counterexample :
    cfg0.future_horizon = 0 ∧
    generate_all_ts_samples cfg0 none tbl0 = Except.ok [sample0] :=
  ⟨rfl, rfl⟩

/-- C6 amended: construction performs no eager validation: on a table
with no rows it always succeeds with an empty collection, for any
horizons (including non-positive ones) and any variable names; a missing
input column surfaces only at first use during windowing, as a KeyError
on the first window that passes the size and status gates (windows that
fail a gate are skipped without touching the columns). -/
theorem claim6_no_eager_validation :
    (∀ (cfg : Config) (env : Option OisstEnv),
      generate_all_ts_samples cfg env [] = Except.ok []) ∧
    (∀ (cfg : Config) (env : Option OisstEnv) (w : List Row) (gate : Row) (st : String),
      (w.take cfg.past_horizon).getLast? = some gate →
      rowScol gate "system_status" = some st →
      (st = "TS" ∨ st = "HU") →
      (∃ r ∈ w.take cfg.past_horizon, ∃ v ∈ cfg.input_vars, rowCol r v = none) →
      buildWindowSample cfg env w = Except.error GenError.keyError ∨
      buildWindowSample cfg env w = Except.ok none) := by
  constructor
  · intro cfg env
    rfl
  · intro cfg env w gate st hg hst hts hmiss
    by_cases hlen : w.length = cfg.past_horizon + cfg.future_horizon
    · left
      rw [buildWindowSample_core_path hlen hg hst hts]
      have hcore : buildSampleCore cfg env w = Except.error GenError.keyError := by
        simp only [buildSampleCore]
        rw [extractVars_missing hmiss]
        rfl
      rw [hcore]
      rfl
    · right
      exact buildWindowSample_size_skip hlen

/-- Witness for the amended C6: empty-table success, and a KeyError at
first use for a missing input column. -/
theorem claim6_no_eager_validation_witness :
    generate_all_ts_samples cfgMiss none [] = Except.ok [] ∧
    (buildWindowSample cfgMiss none [wRow 5 "TS"] = Except.error GenError.keyError ∨
     buildWindowSample cfgMiss none [wRow 5 "TS"] = Except.ok none) :=
  ⟨claim6_no_eager_validation.1 cfgMiss none,
   claim6_no_eager_validation.2 cfgMiss none [wRow 5 "TS"] (wRow 5 "TS") "TS"
     rfl rfl (Or.inl rfl)
     ⟨wRow 5 "TS", by decide, "vmax", by decide, rfl⟩⟩

theorem exOkMap {α β : Type} (a : α) (f : α → β) :
    (Except.ok a : Except GenError α).map f = Except.ok (f a) := rfl

theorem exErrMap {α β : Type} (e : GenError) (f : α → β) :
    (Except.error e : Except GenError α).map f = Except.error e := rfl

theorem map_fst_pair {α β : Type} (f : α → β) (l : List α) :
    (l.map (fun k => (k, f k))).map Prod.fst = l := by
  induction l with
  | nil => rfl
  | cons x xs ih => simp only [List.map_cons, ih]

theorem generate_all_go_eq {cfg : Config} {env : Option OisstEnv} :
    ∀ (gs : List (String × List Row)) (acc : List Sample),
      generate_all_go cfg env gs acc =
        (mapE (fun g => generate_storm_ts_samples cfg env g.2) gs).map
          (fun parts => acc ++ parts.flatten) := by
  intro gs
  induction gs with
  | nil =>
    intro acc
    show Except.ok acc = Except.ok (acc ++ [].flatten)
    simp
  | cons g gs ih =>
    intro acc
    have hcons : generate_all_go cfg env (g :: gs) acc =
        (generate_storm_ts_samples cfg env g.2).bind fun ss =>
          generate_all_go cfg env gs (acc ++ ss) := rfl
    rw [hcons, mapE_cons]
    cases hss : generate_storm_ts_samples cfg env g.2 with
    | error e =>
      simp only [hss, exErrBind, exErrMap]
    | ok ss =>
      simp only [hss, exOkBind]
      rw [ih (acc ++ ss)]
      cases hrest : mapE (fun g => generate_storm_ts_samples cfg env g.2) gs with
      | error e =>
        simp only [hrest, exErrBind, exErrMap]
      | ok parts =>
        simp only [hrest, exOkBind, exOkMap]
        simp [List.flatten, List.append_assoc]

/-- C7: grouping by grouping_var preserves both the original row order
within each group (each group is a sublist of the table) and the order
in which groups are first encountered (the group keys are the
first-occurrence deduplication of the per-row keys); the final Sample
Collection is the concatenation of the per-group sample lists in that
group order, so all samples of an earlier-encountered storm precede all
samples of a later-encountered storm. -/
theorem claim7_group_order (cfg : Config) (env : Option OisstEnv) (table : List Row)
    (samples : List Sample)
    (h : generate_all_ts_samples cfg env table = Except.ok samples) :
    ∃ groups parts,
      groupByKey cfg.grouping_var table = Except.ok groups ∧
      mapE (fun g => generate_storm_ts_samples cfg env g.2) groups = Except.ok parts ∧
      samples = parts.flatten ∧
      (∀ g ∈ groups, g.2.Sublist table) ∧
      ∃ keys, mapE (fun r => rowScolE r cfg.grouping_var) table = Except.ok keys ∧
        groups.map Prod.fst = dedupFirst keys := by
  unfold generate_all_ts_samples at h
  obtain ⟨groups, hgrp, h⟩ := exBindOk h
  rw [generate_all_go_eq] at h
  obtain ⟨parts, hparts, hjoin⟩ := exMapOk h
  simp only [List.nil_append] at hjoin
  have hgrpInv := hgrp
  unfold groupByKey at hgrpInv
  obtain ⟨keys, hkeys, hgrp2⟩ := exBindOk hgrpInv
  injection hgrp2 with hgrp2
  refine ⟨groups, parts, hgrp, hparts, hjoin.symm, ?_, keys, hkeys, ?_⟩
  · intro g hg
    rw [← hgrp2] at hg
    obtain ⟨k, -, hk⟩ := List.mem_map.mp hg
    rw [← hk]
    exact List.filter_sublist table
  · rw [← hgrp2]
    exact map_fst_pair _ _

/- Fixtures for the C7 witness: two one-row storms, B encountered before
A in the table. -/

/-- A track row with an explicit storm code. -/
def wRow2 (code : String) (d : Nat) (st : String) : Row :=
  { year := 2020, month := 9, day := d, hour := 0,
    scols := [("atcf_code", code), ("system_status", st)],
    cols := [("longitude", (d : Int)), ("latitude", 20)] }

/-- A two-storm table: storm B appears before storm A. -/
def tblG : List Row := [wRow2 "B" 1 "TS", wRow2 "A" 2 "TS"]

/-- The sample of storm B. -/
def sampleB : Sample :=
  { input := [[1]], input_dt := ["2020-09-01 00:00:00"],
    output := [[20]], output_dt := ["2020-09-01 00:00:00"],
    atcf_code := "B", input_oisst := none }

/-- The sample of storm A. -/
def sampleA : Sample :=
  { input := [[2]], input_dt := ["2020-09-02 00:00:00"],
    output := [[20]], output_dt := ["2020-09-02 00:00:00"],
    atcf_code := "A", input_oisst := none }

/-- Witness for C7: with storm B first in the table, B's sample precedes
A's, and B's group rows form a sublist of the table. -/
theorem claim7_group_order_witness :
    generate_all_ts_samples cfg0 none tblG = Except.ok [sampleB, sampleA] ∧
    [wRow2 "B" 1 "TS"].Sublist tblG := by
  refine ⟨rfl, ?_⟩
  obtain ⟨groups, parts, hgrp, -, -, hsub, -⟩ :=
    claim7_group_order cfg0 none tblG [sampleB, sampleA] rfl
  have hg0 : (Except.ok [("B", [wRow2 "B" 1 "TS"]), ("A", [wRow2 "A" 2 "TS"])] :
      Except GenError (List (String × List Row))) = Except.ok groups := by
    rw [← hgrp]
    rfl
  injection hg0 with hg0
  have hmem : ("B", [wRow2 "B" 1 "TS"]) ∈ groups := by
    rw [← hg0]
    exact List.mem_cons_self _ _
  exact hsub ("B", [wRow2 "B" 1 "TS"]) hmem

/-- C8: generation is deterministic: for every fixed input (track table,
configuration, optional raster index and raster file contents), two runs
of sample generation produce identical Sample Collections; the embedded
generator is a pure function of exactly these inputs. -/
theorem claim8_deterministic (cfg1 cfg2 : Config) (env1 env2 : Option OisstEnv)
    (t1 t2 : List Row) (hc : cfg1 = cfg2) (he : env1 = env2) (ht : t1 = t2) :
    generate_all_ts_samples cfg1 env1 t1 = generate_all_ts_samples cfg2 env2 t2 := by
  subst hc
  subst he
  subst ht
  rfl

/-- Witness for C8 at a concrete input. -/
theorem claim8_deterministic_witness :
    generate_all_ts_samples wCfg none tblG = generate_all_ts_samples wCfg none tblG :=
  claim8_deterministic wCfg wCfg none none tblG tblG rfl rfl rfl
